import Mathlib

/-!
Verification of the sysmo-usim-tool GUI card core: encoders/decoders,
ATR-based card detection, ADM1 authentication, programming orchestration
and verification (src/managers/card_manager.py, src/utils/card_detector.py).

Strings of hexadecimal/decimal digits are modelled as `List Nat` of nibble
values (character c ↦ its hex value, so digit characters map to 0..9 and
the padding characters map to 9 and 15).  Byte lists are `List Nat` with
values below 256.
-/

/-- Modelled from the spec: the root-level `utils.py` is not present under
`src/` (only `src/utils/__init__.py` re-exports it).  `asciihex_to_list`
converts an ascii-hex string to a list of byte values, two hex digits per
byte, first digit in the high nibble (the repo's own tests pin
`asciihex_to_list("AABBCCDD") = [0xAA, 0xBB, 0xCC, 0xDD]`).  Per spec §4.4
the encoder layer is total and "must not panic"; an empty, odd-length or
non-hex input yields the defensive empty result. -/
def asciihex_to_list : List Nat → List Nat
  | a :: b :: rest =>
      if a < 16 ∧ b < 16 then (a * 16 + b) :: asciihex_to_list rest else []
  | _ => []

/-- Modelled from the spec: `pad_asciihex` from the absent root `utils.py`.
It pads an odd-length ascii-hex string with one padding nibble (in front
when `front` is true, else at the back); the decoder docstrings in
`card_manager.py` record this behavior ("Strip leading 9 padding (added by
pad_asciihex)", "Strip trailing f padding").  Even-length input is returned
unchanged. -/
def pad_asciihex (s : List Nat) (front : Bool) (padding : Nat) : List Nat :=
  if s.length % 2 ≠ 0 then (if front then padding :: s else s ++ [padding]) else s

/-- Expand a byte list into its nibble string, high nibble first: the
embedding of the Python expression joining the two-digit lowercase hex
rendering of each byte (exact for byte values below 256). -/
def bytes_to_nibbles : List Nat → List Nat
  | [] => []
  | b :: rest => b / 16 :: b % 16 :: bytes_to_nibbles rest

/-- CardManager._encode_imsi (card_manager.py:299): front-pad an odd-length
IMSI digit string with the nibble 9 and pack pairs of digits as hex bytes;
no length byte and no nibble swap (the driver's write_imsi adds those). -/
def _encode_imsi (imsi : List Nat) : List Nat :=
  asciihex_to_list (pad_asciihex imsi true 9)

/-- CardManager._decode_imsi (card_manager.py:308): render the bytes as a
hex digit string, strip one leading 9 when the string has even length
(always true), and return the digits; `none` models the Python `None` on
an empty byte list. -/
def _decode_imsi (imsi_raw : List Nat) : Option (List Nat) :=
  if imsi_raw = [] then none
  else
    let hex := bytes_to_nibbles imsi_raw
    some (if hex.length % 2 = 0 ∧ hex.head? = some 9 then hex.tail else hex)

/-- CardManager._encode_iccid (card_manager.py:320): back-pad an odd-length
ICCID digit string with the nibble 15 and pack pairs of digits as hex
bytes; no nibble swap (the driver's write_iccid swaps). -/
def _encode_iccid (iccid : List Nat) : List Nat :=
  asciihex_to_list (pad_asciihex iccid false 15)

/-- CardManager._decode_iccid (card_manager.py:329): render the bytes as a
hex digit string and strip all trailing 15 (hex f) padding nibbles;
`none` models the Python `None` on an empty byte list. -/
def _decode_iccid (iccid_raw : List Nat) : Option (List Nat) :=
  if iccid_raw = [] then none
  else some (((bytes_to_nibbles iccid_raw).reverse.dropWhile (fun x => x == 15)).reverse)

/-- CardManager._encode_plmn (card_manager.py:549): nibble-swapped BCD PLMN
encoding; length-5 and length-6 digit strings are accepted, anything else
raises ValueError, modelled as `none`. -/
def _encode_plmn (plmn : List Nat) : Option (List Nat) :=
  if plmn.length = 5 then
    some [(plmn.getD 1 0) <<< 4 ||| plmn.getD 0 0,
          0xF0 ||| plmn.getD 2 0,
          (plmn.getD 4 0) <<< 4 ||| plmn.getD 3 0]
  else if plmn.length = 6 then
    some [(plmn.getD 1 0) <<< 4 ||| plmn.getD 0 0,
          (plmn.getD 5 0) <<< 4 ||| plmn.getD 2 0,
          (plmn.getD 4 0) <<< 4 ||| plmn.getD 3 0]
  else none

/-- CardType enum (card_detector.py:21). -/
inductive CardType where
  | UNKNOWN
  | SJA2
  | SJA5
  | SJS1
deriving DecidableEq, Repr

/-- SJA2 ATR pattern, 16 bytes (card_detector.py:34; source name
SJA2_ATR_PREFIX). -/
def SJA2_ATR_PAT : List Nat :=
  [0x3B, 0x9F, 0x96, 0x80, 0x1F, 0x87, 0x80, 0x31, 0xE0, 0x73,
   0xFE, 0x21, 0x1B, 0x67, 0x4A, 0x4C]

/-- SJA5 9FV hardware-variant ATR pattern, 19 bytes (card_detector.py:38). -/
def SJA5_ATR_9FV : List Nat :=
  [0x3B, 0x9F, 0x96, 0x80, 0x1F, 0x87, 0x80, 0x31, 0xE0, 0x73,
   0xFE, 0x21, 0x1B, 0x67, 0x4A, 0x35, 0x75, 0x30, 0x35]

/-- SJA5 SLM17 hardware-variant ATR pattern, 19 bytes (card_detector.py:41). -/
def SJA5_ATR_SLM17 : List Nat :=
  [0x3B, 0x9F, 0x96, 0x80, 0x1F, 0x87, 0x80, 0x31, 0xE0, 0x73,
   0xFE, 0x21, 0x1B, 0x67, 0x4A, 0x35, 0x75, 0x30, 0x34]

/-- SJA5 3FJ hardware-variant ATR pattern, 19 bytes (card_detector.py:44). -/
def SJA5_ATR_3FJ : List Nat :=
  [0x3B, 0x9F, 0x96, 0x80, 0x1F, 0xC7, 0x80, 0x31, 0xE0, 0x73,
   0xFE, 0x21, 0x1B, 0x64, 0x10, 0x38, 0x0A, 0x00, 0x74]

/-- SJS1 ATR pattern, 19 bytes (card_detector.py:48). -/
def SJS1_ATR : List Nat :=
  [0x3B, 0x9F, 0x96, 0x80, 0x1F, 0x87, 0x80, 0x31, 0xE0, 0x73,
   0xFE, 0x21, 0x1B, 0x67, 0x4A, 0x35, 0x75, 0x30, 0x31]

/-- CardDetector._atr_matches (card_detector.py:51): the ATR matches a
pattern up to a given length when it has at least that many bytes and the
first `length` bytes agree (the callers always pass the length
explicitly, so the `length=None` default is not modelled). -/
def _atr_matches (atr pattern : List Nat) (length : Nat) : Bool :=
  if atr.length < length then false else atr.take length == pattern.take length

/-- CardDetector.detect_card_type (card_detector.py:61): empty or
shorter-than-16-byte ATRs are Unknown; otherwise the three SJA5 variants
are tried first, then SJS1, then SJA2, and no match is Unknown. -/
def detect_card_type (atr : List Nat) : CardType :=
  if atr = [] ∨ atr.length < 16 then CardType.UNKNOWN
  else if _atr_matches atr SJA5_ATR_9FV 19 then CardType.SJA5
  else if _atr_matches atr SJA5_ATR_SLM17 19 then CardType.SJA5
  else if _atr_matches atr SJA5_ATR_3FJ 19 then CardType.SJA5
  else if _atr_matches atr SJS1_ATR 19 then CardType.SJS1
  else if _atr_matches atr SJA2_ATR_PAT 16 then CardType.SJA2
  else CardType.UNKNOWN


/-- Modelled from the spec: `ascii_to_list` from the absent root
`utils.py` maps each character of a string to its character code (the
repo's tests pin `ascii_to_list("12345678") = [0x31, ..., 0x38]`). -/
def ascii_to_list (s : String) : List Nat :=
  s.data.map Char.toNat

/-- Opaque card-driver handle (spec §6): outcomes of the driver calls the
manager makes.  `Except String` models a raised exception carrying its
message; the per-write `Bool` fields model whether that write raises;
`has_write_auth_params` models `hasattr(card, "write_auth_params")` in the
3-argument branch; the read fields model the pySim read-back results with
`none` for a raised exception. -/
structure Driver where
  admin_auth : List Nat → Bool → Except String Bool
  chv_retrys : Except String Nat
  get_imsi : Option String
  get_iccid : Option String
  read_ad : Option (List Nat)
  write_imsi_ok : Bool
  write_iccid_ok : Bool
  write_key_ok : Bool
  write_opc_ok : Bool
  write_auth_ok : Bool
  write_mnclen_ok : Bool
  has_write_auth_params : Bool

/-- CardManager state (card_manager.py:46): current driver handle (`none`
when no card), detected card type, authentication flag and cached ATR. -/
structure CardManager where
  card : Option Driver
  card_type : CardType
  authenticated : Bool
  atr : Option (List Nat)

/-- CardManager.authenticate (card_manager.py:82): returns the updated
manager together with the `(success, message)` pair the Python method
returns. -/
def authenticate (cm : CardManager) (adm1 : String) (force : Bool) :
    CardManager × Bool × String :=
  match cm.card with
  | none => (cm, false, "No card detected")
  | some card =>
    match card.admin_auth (ascii_to_list adm1) force with
    | Except.error e => (cm, false, "Authentication error: " ++ e)
    | Except.ok true => ({ cm with authenticated := true }, true, "Authentication successful")
    | Except.ok false =>
      match card.chv_retrys with
      | Except.error _ => (cm, false, "Authentication failed")
      | Except.ok 0 => (cm, false, "Card is locked! No attempts remaining.")
      | Except.ok (n + 1) =>
        (cm, false, "Authentication failed. " ++ toString (n + 1) ++ " attempts remaining")

/-- Truthiness of an optional string-valued field, as Python's
`'K' in d and d['K']`: the key is present and its value non-empty. -/
def truthyS (o : Option String) : Bool :=
  !(o.getD "").isEmpty

/-- Truthiness of an optional hex-digit-valued field (value modelled as a
nibble list): present with a non-empty value. -/
def truthyL (o : Option (List Nat)) : Bool :=
  !(o.getD []).isEmpty

/-- The field map handed to program_card (card_manager.py:182), restricted
to the keys the method consults.  `none` models an absent key, `some`
a present value; hex-digit values (IMSI, ICCID, Ki, OPc, HPLMN) are nibble
lists, the rest stay strings.  The keys tested only for presence
(MILENAGE_R1, TUAK_RES_SIZE, ROUTING_INDICATOR, HNET_PUBKEY) are presence
booleans. -/
structure CardData where
  IMSI : Option (List Nat)
  ICCID : Option (List Nat)
  Ki : Option (List Nat)
  OPc : Option (List Nat)
  USE_OPC : Option String
  ALGO_2G : Option String
  ALGO_3G : Option String
  ALGO_4G5G : Option String
  MNC_LENGTH : Option String
  has_MILENAGE_R1 : Bool
  has_TUAK_RES_SIZE : Bool
  HPLMN : Option (List Nat)
  has_ROUTING_INDICATOR : Bool
  has_HNET_PUBKEY : Bool
  OPLMN_ACT : Option String

/-- Driver calls program_card can issue, one constructor per driver entry
point; the `_helper` constructors stand for the four private helpers
(card_manager.py:337,360,374,426,513) which catch every exception
internally and never affect the caller's control flow, so each is modelled
as a single always-succeeding traced step. -/
inductive WCall where
  | write_imsi
  | write_iccid
  | write_key_params
  | write_opc_params
  | write_auth_params2
  | write_auth_params3
  | write_mnclen
  | milenage_helper
  | tuak_helper
  | plmn_helper
  | suci_helper
  | oplmn_helper
deriving DecidableEq, Repr

/-- One guarded entry of program_card's ordered plan: `guard` is the
field-presence condition, `action` returns the driver call made and
whether it succeeds (`none` models an exception raised before any driver
call, as in `int(card_data["MNC_LENGTH"])`), and `swallows` marks the
inner `try/except: pass` of the ICCID write and the self-catching
helpers. -/
structure Step where
  guard : CardType → CardData → Bool
  action : Driver → CardData → Option (WCall × Bool)
  swallows : Bool

/-- Run program_card's plan in order, accumulating the trace of attempted
driver calls; a failing non-swallowed step or a pre-call exception stops
the run with the catch-all error of card_manager.py:260 (the exception
text is elided), and a completed run returns the success message. -/
def runSteps (dr : Driver) (ct : CardType) (d : CardData) :
    List Step → List WCall → (Bool × String) × List WCall
  | [], t => ((true, "Card programmed successfully"), t)
  | s :: rest, t =>
    if s.guard ct d then
      match s.action dr d with
      | none => ((false, "Programming error"), t)
      | some (c, ok) =>
        if ok || s.swallows then runSteps dr ct d rest (t ++ [c])
        else ((false, "Programming error"), t ++ [c])
    else runSteps dr ct d rest t

/-- The ordered plan of program_card (card_manager.py:195-256), one entry
per guarded block, in source order: IMSI (mandatory), ICCID (inner
try/except swallows the write failure), Ki, OPc (both mandatory), the
always-executed algorithm write (3-argument form exactly when ALGO_4G5G
is truthy and the driver has the attribute, line 225), MNC_LENGTH
(`int(...)` may raise before the write), then the five self-catching
helpers with their guards: MILENAGE_R1 presence, SJA5 with TUAK_RES_SIZE
presence, truthy HPLMN, SJA5 with ROUTING_INDICATOR or HNET_PUBKEY
present, truthy OPLMN_ACT. -/
def program_steps : List Step :=
  [⟨fun _ d => truthyL d.IMSI, fun dr _ => some (WCall.write_imsi, dr.write_imsi_ok), false⟩,
   ⟨fun _ d => truthyL d.ICCID, fun dr _ => some (WCall.write_iccid, dr.write_iccid_ok), true⟩,
   ⟨fun _ d => truthyL d.Ki, fun dr _ => some (WCall.write_key_params, dr.write_key_ok), false⟩,
   ⟨fun _ d => truthyL d.OPc, fun dr _ => some (WCall.write_opc_params, dr.write_opc_ok), false⟩,
   ⟨fun _ _ => true,
    fun dr d => some (if truthyS d.ALGO_4G5G && dr.has_write_auth_params
                      then WCall.write_auth_params3 else WCall.write_auth_params2,
                      dr.write_auth_ok), false⟩,
   ⟨fun _ d => truthyS d.MNC_LENGTH,
    fun dr d => match (d.MNC_LENGTH.getD "").toInt? with
      | none => none
      | some _ => some (WCall.write_mnclen, dr.write_mnclen_ok), false⟩,
   ⟨fun _ d => d.has_MILENAGE_R1, fun _ _ => some (WCall.milenage_helper, true), false⟩,
   ⟨fun ct d => ct == CardType.SJA5 && d.has_TUAK_RES_SIZE,
    fun _ _ => some (WCall.tuak_helper, true), false⟩,
   ⟨fun _ d => truthyL d.HPLMN, fun _ _ => some (WCall.plmn_helper, true), false⟩,
   ⟨fun ct d => ct == CardType.SJA5 && (d.has_ROUTING_INDICATOR || d.has_HNET_PUBKEY),
    fun _ _ => some (WCall.suci_helper, true), false⟩,
   ⟨fun _ d => truthyS d.OPLMN_ACT, fun _ _ => some (WCall.oplmn_helper, true), false⟩]

/-- CardManager.program_card (card_manager.py:182): immediate error when
not authenticated, otherwise the ordered plan runs against the driver;
a `none` driver handle would raise AttributeError at its first use, caught
by the same catch-all as any write failure. -/
def program_card (cm : CardManager) (card_data : CardData) :
    (Bool × String) × List WCall :=
  if cm.authenticated = false then ((false, "Not authenticated"), [])
  else
    match cm.card with
    | none => ((false, "Programming error"), [])
    | some dr => runSteps dr cm.card_type card_data program_steps []

/-- The dictionary read_card_data builds (card_manager.py:135): per-field
read-back results, `none` for a field whose read raised (the source then
stores Python `None`; for mnc_length the source leaves the key absent when
the AD file is too short, merged here with `none`). -/
structure CardReadData where
  imsi : Option String
  iccid : Option String
  mnc_length : Option Nat
  atr : List Nat
  ki_readable : Bool
deriving DecidableEq, Repr

/-- CardManager.read_card_data (card_manager.py:124): `none` when not
authenticated; otherwise each field is read under its own try/except and
a failed read records `none` for that field. -/
def read_card_data (cm : CardManager) : Option CardReadData :=
  if cm.authenticated = false then none
  else
    some
      { imsi := cm.card.bind (fun dr => dr.get_imsi)
        iccid := cm.card.bind (fun dr => dr.get_iccid)
        mnc_length :=
          match cm.card.bind (fun dr => dr.read_ad) with
          | some ad => if ad ≠ [] ∧ ad.length > 3 then some (ad.getD 3 0 &&& 0x0F) else none
          | none => none
        atr := cm.atr.getD []
        ki_readable := false }

/-- The expected-value map handed to verify_card, restricted to the two
keys it consults. -/
structure ExpectedData where
  IMSI : Option String
  ICCID : Option String

/-- CardManager.verify_card (card_manager.py:263): requires authentication,
reads the card back, and compares IMSI and ICCID against the expected map
only when the expected key is present AND the read-back value is truthy;
returns (no mismatch collected, mismatch list). -/
def verify_card (cm : CardManager) (expected : ExpectedData) : Bool × List String :=
  if cm.authenticated = false then (false, ["Not authenticated"])
  else
    match read_card_data cm with
    | none => (false, ["Could not read card data"])
    | some cur =>
      let m1 : List String :=
        if expected.IMSI.isSome ∧ (cur.imsi.getD "") ≠ "" ∧ cur.imsi ≠ expected.IMSI
        then ["IMSI: expected " ++ expected.IMSI.getD "" ++ ", got " ++ cur.imsi.getD ""]
        else []
      let m2 : List String :=
        if expected.ICCID.isSome ∧ (cur.iccid.getD "") ≠ "" ∧ cur.iccid ≠ expected.ICCID
        then ["ICCID: expected " ++ expected.ICCID.getD "" ++ ", got " ++ cur.iccid.getD ""]
        else []
      ((m1 ++ m2).isEmpty, m1 ++ m2)

/-- The BCD pair packing the spec's words claim for the IMSI encoder
(spec §4.4): digit pairs (d0, d1) become the byte d1<<4|d0 with the first
digit in the low nibble, and an odd digit count puts padding 0xF in the
final byte's high nibble.  Defined from the spec's words, for comparison
with `_encode_imsi`. -/
def spec_imsi_bcd : List Nat → List Nat
  | [] => []
  | [d0] => [15 * 16 + d0]
  | d0 :: d1 :: rest => (d1 * 16 + d0) :: spec_imsi_bcd rest

/-- The IMSI encoder output the spec's words claim (spec §4.4): a leading
digit-count byte followed by the BCD packing.  Defined from the spec's
words, for comparison with `_encode_imsi`. -/
def spec_encode_imsi (s : List Nat) : List Nat :=
  s.length :: spec_imsi_bcd s

/-- Plain ascii-hex pair packing, first digit in the HIGH nibble: the
closed form the amended IMSI-encoder claim compares `_encode_imsi`
against. -/
def hex_pack : List Nat → List Nat
  | d0 :: d1 :: rest => (d0 * 16 + d1) :: hex_pack rest
  | _ => []

/-- The field-presence guard under which program_card may issue each
driver call (the algorithm-parameter writes are unconditional): the
statement predicate of the amended frame-effect claim. -/
def call_guard (ct : CardType) (d : CardData) : WCall → Bool
  | WCall.write_imsi => truthyL d.IMSI
  | WCall.write_iccid => truthyL d.ICCID
  | WCall.write_key_params => truthyL d.Ki
  | WCall.write_opc_params => truthyL d.OPc
  | WCall.write_auth_params2 => true
  | WCall.write_auth_params3 => true
  | WCall.write_mnclen => truthyS d.MNC_LENGTH
  | WCall.milenage_helper => d.has_MILENAGE_R1
  | WCall.tuak_helper => ct == CardType.SJA5 && d.has_TUAK_RES_SIZE
  | WCall.plmn_helper => truthyL d.HPLMN
  | WCall.suci_helper => ct == CardType.SJA5 && (d.has_ROUTING_INDICATOR || d.has_HNET_PUBKEY)
  | WCall.oplmn_helper => truthyS d.OPLMN_ACT

/-- A driver whose every call succeeds: ADM1 accepted, 3 retries left,
reads raise (none), every write succeeds, 3-argument write_auth_params
available. -/
def drv_ok : Driver :=
  { admin_auth := fun _ _ => Except.ok true
    chv_retrys := Except.ok 3
    get_imsi := none
    get_iccid := none
    read_ad := none
    write_imsi_ok := true
    write_iccid_ok := true
    write_key_ok := true
    write_opc_ok := true
    write_auth_ok := true
    write_mnclen_ok := true
    has_write_auth_params := true }

/-- A driver that refuses ADM1 with 0 retries remaining (locked card). -/
def drv_locked : Driver :=
  { drv_ok with admin_auth := fun _ _ => Except.ok false, chv_retrys := Except.ok 0 }

/-- A driver that refuses ADM1 with 2 retries remaining. -/
def drv_retry2 : Driver :=
  { drv_ok with admin_auth := fun _ _ => Except.ok false, chv_retrys := Except.ok 2 }

/-- A driver that refuses ADM1 and whose retry-count query itself raises. -/
def drv_chv_err : Driver :=
  { drv_ok with admin_auth := fun _ _ => Except.ok false,
                chv_retrys := Except.error "chv query failed" }

/-- A driver that raises on the IMSI write. -/
def drv_imsi_fail : Driver :=
  { drv_ok with write_imsi_ok := false }

/-- A driver that raises on the ICCID write only. -/
def drv_iccid_fail : Driver :=
  { drv_ok with write_iccid_ok := false }

/-- Manager state with no card present. -/
def cm_no_card : CardManager :=
  { card := none, card_type := CardType.UNKNOWN, authenticated := false, atr := none }

/-- Unauthenticated manager state holding a given driver. -/
def cm_fresh (dr : Driver) : CardManager :=
  { card := some dr, card_type := CardType.SJA2, authenticated := false, atr := none }

/-- Authenticated manager state holding a given driver. -/
def cm_auth (dr : Driver) : CardManager :=
  { card := some dr, card_type := CardType.SJA2, authenticated := true, atr := none }

/-- The empty field map: every key absent. -/
def d_empty : CardData :=
  { IMSI := none, ICCID := none, Ki := none, OPc := none, USE_OPC := none
    ALGO_2G := none, ALGO_3G := none, ALGO_4G5G := none, MNC_LENGTH := none
    has_MILENAGE_R1 := false, has_TUAK_RES_SIZE := false, HPLMN := none
    has_ROUTING_INDICATOR := false, has_HNET_PUBKEY := false, OPLMN_ACT := none }

/-- A field map containing only the IMSI key. -/
def d_imsi_only : CardData :=
  { d_empty with IMSI := some [0, 0, 1, 0, 1, 0, 0, 0, 0, 0, 0, 0, 0, 0, 1] }

/-- A field map containing IMSI and ICCID. -/
def d_imsi_iccid : CardData :=
  { d_empty with IMSI := some [0, 0, 1, 0, 1, 0, 0, 0, 0, 0, 0, 0, 0, 0, 1]
                 ICCID := some [8, 9, 4, 9, 4, 4, 0, 0, 0, 0, 0, 0, 0, 1, 6, 7, 2, 7, 0, 6] }

/-- An expected-value map supplying only an IMSI. -/
def e_imsi : ExpectedData :=
  { IMSI := some "001010000000001", ICCID := none }


/-! ## Lemmas about the nibble packing -/

/-- Unpacking the bytes produced by `asciihex_to_list` recovers an
even-length nibble string. -/
theorem bytes_to_nibbles_asciihex :
    ∀ l : List Nat, (∀ x ∈ l, x < 16) → l.length % 2 = 0 →
      bytes_to_nibbles (asciihex_to_list l) = l
  | [], _, _ => rfl
  | [_], _, h => by simp at h
  | a :: b :: rest, h16, hev => by
    have ha : a < 16 := h16 a (by simp)
    have hb : b < 16 := h16 b (by simp)
    have hrest : ∀ x ∈ rest, x < 16 := fun x hx => h16 x (by simp [hx])
    have hev2 : rest.length % 2 = 0 := by
      have h2 : (a :: b :: rest).length = rest.length + 2 := by simp
      omega
    have ih := bytes_to_nibbles_asciihex rest hrest hev2
    have hdiv : (a * 16 + b) / 16 = a := by omega
    have hmod : (a * 16 + b) % 16 = b := by omega
    simp [asciihex_to_list, ha, hb, bytes_to_nibbles, ih, hdiv, hmod]

/-- On an even-length string of valid nibbles, `asciihex_to_list` is the
plain high-nibble-first pair packing. -/
theorem asciihex_eq_hex_pack :
    ∀ l : List Nat, (∀ x ∈ l, x < 16) → l.length % 2 = 0 →
      asciihex_to_list l = hex_pack l
  | [], _, _ => rfl
  | [_], _, h => by simp at h
  | a :: b :: rest, h16, hev => by
    have ha : a < 16 := h16 a (by simp)
    have hb : b < 16 := h16 b (by simp)
    have hrest : ∀ x ∈ rest, x < 16 := fun x hx => h16 x (by simp [hx])
    have hev2 : rest.length % 2 = 0 := by
      have h2 : (a :: b :: rest).length = rest.length + 2 := by simp
      omega
    have ih := asciihex_eq_hex_pack rest hrest hev2
    simp [asciihex_to_list, ha, hb, hex_pack, ih]

/-- A nonempty even-length valid nibble string packs to a nonempty byte
list. -/
theorem asciihex_ne_nil :
    ∀ l : List Nat, l ≠ [] → (∀ x ∈ l, x < 16) → l.length % 2 = 0 →
      asciihex_to_list l ≠ []
  | [], h, _, _ => absurd rfl h
  | [_], _, _, h => by simp at h
  | a :: b :: _, _, h16, _ => by
    have ha : a < 16 := h16 a (by simp)
    have hb : b < 16 := h16 b (by simp)
    simp [asciihex_to_list, ha, hb]

/-- dropWhile of the padding test leaves a list of decimal digits
unchanged. -/
theorem dropWhile_15_digits (l : List Nat) (h : ∀ x ∈ l, x < 10) :
    l.dropWhile (fun x => x == 15) = l := by
  cases l with
  | nil => rfl
  | cons a t =>
    have ha : a < 10 := h a (by simp)
    have : (a == 15) = false := by simp; omega
    simp [List.dropWhile, this]

/-! ## C1, C2: IMSI/ICCID encoding claims -/

/-- C1 counterexample: "91" is a valid decimal-digit string of length 2,
but decoding its IMSI encoding yields "1": the leading digit 9 of an
even-length IMSI is mistaken for the padding nibble and stripped, so the
round-trip law fails as stated. -/
theorem roundtrip_cex :
    (∀ x ∈ [9, 1], x < 10) ∧ 1 ≤ ([9, 1] : List Nat).length ∧
    ([9, 1] : List Nat).length ≤ 20 ∧
    _decode_imsi (_encode_imsi [9, 1]) = some [1] ∧
    _decode_imsi (_encode_imsi [9, 1]) ≠ some [9, 1] := by decide

/-- C1 (amended): for every valid decimal-digit string of length 1..20 the
ICCID round-trip holds, and the IMSI round-trip holds whenever the digit
count is odd or the first digit is not 9 (an even-length string starting
with 9 loses that digit to padding-stripping). -/
theorem roundtrip_encode_decode (s : List Nat) (hd : ∀ x ∈ s, x < 10)
    (hlo : 1 ≤ s.length) (_hhi : s.length ≤ 20) :
    _decode_iccid (_encode_iccid s) = some s ∧
    (s.length % 2 = 1 ∨ s.head? ≠ some 9 → _decode_imsi (_encode_imsi s) = some s) := by
  have h16 : ∀ x ∈ s, x < 16 := fun x hx => by have := hd x hx; omega
  have hne0 : s ≠ [] := by intro h; rw [h] at hlo; simp at hlo
  have hrev : ∀ x ∈ s.reverse, x < 10 := fun x hx => hd x (List.mem_reverse.mp hx)
  constructor
  · by_cases hev : s.length % 2 = 0
    · have hpad : pad_asciihex s false 15 = s := by simp [pad_asciihex, hev]
      have hne : asciihex_to_list s ≠ [] := asciihex_ne_nil s hne0 h16 hev
      unfold _encode_iccid _decode_iccid
      rw [hpad, if_neg hne, bytes_to_nibbles_asciihex s h16 hev]
      rw [dropWhile_15_digits s.reverse hrev, List.reverse_reverse]
    · have h16p : ∀ x ∈ s ++ [15], x < 16 := by
        intro x hx
        rcases List.mem_append.mp hx with h | h
        · exact h16 x h
        · simp at h; omega
      have hevp : (s ++ [15]).length % 2 = 0 := by
        have : (s ++ [15]).length = s.length + 1 := by simp
        omega
      have hpad : pad_asciihex s false 15 = s ++ [15] := by simp [pad_asciihex, hev]
      have hne : asciihex_to_list (s ++ [15]) ≠ [] :=
        asciihex_ne_nil _ (by simp) h16p hevp
      unfold _encode_iccid _decode_iccid
      rw [hpad, if_neg hne, bytes_to_nibbles_asciihex _ h16p hevp]
      have hrevp : (s ++ [15]).reverse = 15 :: s.reverse := by simp
      rw [hrevp, List.dropWhile_cons]
      simp only [show ((15 : Nat) == 15) = true from rfl, if_true]
      rw [dropWhile_15_digits s.reverse hrev, List.reverse_reverse]
  · intro hor
    by_cases hev : s.length % 2 = 0
    · have hh9 : s.head? ≠ some 9 := by
        rcases hor with h | h
        · omega
        · exact h
      have hpad : pad_asciihex s true 9 = s := by simp [pad_asciihex, hev]
      have hne : asciihex_to_list s ≠ [] := asciihex_ne_nil s hne0 h16 hev
      unfold _encode_imsi _decode_imsi
      rw [hpad, if_neg hne, bytes_to_nibbles_asciihex s h16 hev]
      show some (if s.length % 2 = 0 ∧ s.head? = some 9 then s.tail else s) = some s
      rw [if_neg (by rintro ⟨_, hc⟩; exact hh9 hc)]
    · have h16p : ∀ x ∈ 9 :: s, x < 16 := by
        intro x hx
        rcases List.mem_cons.mp hx with h | h
        · omega
        · exact h16 x h
      have hevp : (9 :: s).length % 2 = 0 := by simp; omega
      have hpad : pad_asciihex s true 9 = 9 :: s := by simp [pad_asciihex, hev]
      have hne : asciihex_to_list (9 :: s) ≠ [] :=
        asciihex_ne_nil _ (by simp) h16p hevp
      unfold _encode_imsi _decode_imsi
      rw [hpad, if_neg hne, bytes_to_nibbles_asciihex _ h16p hevp]
      show some (if (9 :: s).length % 2 = 0 ∧ (9 :: s).head? = some 9
                 then (9 :: s).tail else 9 :: s) = some s
      rw [if_pos ⟨hevp, rfl⟩]
      simp

/-- C1 witness: a concrete 3-digit string round-trips through both
codecs. -/
theorem roundtrip_encode_decode_witness :
    _decode_iccid (_encode_iccid [1, 2, 3]) = some [1, 2, 3] ∧
    _decode_imsi (_encode_imsi [1, 2, 3]) = some [1, 2, 3] :=
  ⟨(roundtrip_encode_decode [1, 2, 3] (by decide) (by decide) (by decide)).1,
   (roundtrip_encode_decode [1, 2, 3] (by decide) (by decide) (by decide)).2 (by decide)⟩

/-- C2 counterexample: for the valid 1-digit string "1" the encoder emits
[0x91] (front 9-pad, digit in the low nibble of a plain hex byte), not the
claimed digit-count byte followed by low-nibble-first BCD with 0xF
padding, which would be [0x01, 0xF1]. -/
theorem imsi_encode_claim_cex :
    (∀ x ∈ [1], x < 10) ∧
    _encode_imsi [1] = [0x91] ∧ spec_encode_imsi [1] = [0x01, 0xF1] ∧
    _encode_imsi [1] ≠ spec_encode_imsi [1] := by decide

/-- C2 (amended): for every valid digit string the IMSI encoder outputs
the plain ascii-hex pair packing (first digit in the HIGH nibble) of the
string front-padded with the nibble 9 when the digit count is odd; there
is no digit-count byte and no 0xF padding (the driver's write_imsi adds
the length byte and swaps nibbles). -/
theorem imsi_encode_layout (s : List Nat) (hd : ∀ x ∈ s, x < 10) :
    _encode_imsi s = hex_pack (if s.length % 2 = 1 then 9 :: s else s) := by
  have h16 : ∀ x ∈ s, x < 16 := fun x hx => by have := hd x hx; omega
  by_cases hev : s.length % 2 = 0
  · rw [if_neg (by omega)]
    unfold _encode_imsi
    rw [show pad_asciihex s true 9 = s from by simp [pad_asciihex, hev]]
    exact asciihex_eq_hex_pack s h16 hev
  · rw [if_pos (by omega)]
    unfold _encode_imsi
    rw [show pad_asciihex s true 9 = 9 :: s from by simp [pad_asciihex, hev]]
    refine asciihex_eq_hex_pack _ ?_ ?_
    · intro x hx
      rcases List.mem_cons.mp hx with h | h
      · omega
      · exact h16 x h
    · simp; omega

/-- C2 witness: the amended layout at the 3-digit string "123". -/
theorem imsi_encode_layout_witness :
    _encode_imsi [1, 2, 3] =
      hex_pack (if ([1, 2, 3] : List Nat).length % 2 = 1 then 9 :: [1, 2, 3] else [1, 2, 3]) :=
  imsi_encode_layout [1, 2, 3] (by decide)

/-! ## C3, C4: PLMN encoder claims -/

/-- C3 counterexample: the spec's second test vector is wrong: the encoder
maps "310410" to [0x13, 0x00, 0x14] (the 3GPP layout its own test
test_encode_plmn_3digit_mnc also expects), not to the [0x13, 0x04, 0x01]
of the source docstring the spec copied. -/
theorem plmn_vector_cex :
    _encode_plmn [3, 1, 0, 4, 1, 0] = some [0x13, 0x00, 0x14] ∧
    _encode_plmn [3, 1, 0, 4, 1, 0] ≠ some [0x13, 0x04, 0x01] := by decide

/-- C3 (amended): the PLMN encoder satisfies encode("24001") =
[0x42, 0xF0, 0x10] and encode("310410") = [0x13, 0x00, 0x14], and raises
an encoding error (ValueError) on every input whose length is neither 5
nor 6 instead of silently truncating. -/
theorem plmn_test_vectors :
    _encode_plmn [2, 4, 0, 0, 1] = some [0x42, 0xF0, 0x10] ∧
    _encode_plmn [3, 1, 0, 4, 1, 0] = some [0x13, 0x00, 0x14] ∧
    ∀ p : List Nat, p.length ≠ 5 → p.length ≠ 6 → _encode_plmn p = none := by
  refine ⟨by decide, by decide, ?_⟩
  intro p h5 h6
  unfold _encode_plmn
  rw [if_neg h5, if_neg h6]

/-- C3 witness: the error branch at the concrete 3-digit input "240". -/
theorem plmn_test_vectors_witness :
    _encode_plmn [2, 4, 0] = none :=
  plmn_test_vectors.2.2 [2, 4, 0] (by decide) (by decide)

/-- C4: byte-level layout of the PLMN encoder: a 5-digit input
m0 m1 m2 n0 n1 yields [m1<<4|m0, 0xF0|m2, n1<<4|n0], a 6-digit input
m0 m1 m2 n0 n1 n2 yields [m1<<4|m0, n2<<4|m2, n1<<4|n0], and any other
length is a format error (ValueError), never a truncation. -/
theorem plmn_encode_layout :
    (∀ m0 m1 m2 n0 n1 : Nat, m0 < 10 → m1 < 10 → m2 < 10 → n0 < 10 → n1 < 10 →
      _encode_plmn [m0, m1, m2, n0, n1] =
        some [m1 <<< 4 ||| m0, 0xF0 ||| m2, n1 <<< 4 ||| n0]) ∧
    (∀ m0 m1 m2 n0 n1 n2 : Nat, m0 < 10 → m1 < 10 → m2 < 10 →
        n0 < 10 → n1 < 10 → n2 < 10 →
      _encode_plmn [m0, m1, m2, n0, n1, n2] =
        some [m1 <<< 4 ||| m0, n2 <<< 4 ||| m2, n1 <<< 4 ||| n0]) ∧
    (∀ p : List Nat, p.length ≠ 5 → p.length ≠ 6 → _encode_plmn p = none) := by
  refine ⟨?_, ?_, ?_⟩
  · intro m0 m1 m2 n0 n1 _ _ _ _ _
    simp [_encode_plmn]
  · intro m0 m1 m2 n0 n1 n2 _ _ _ _ _ _
    simp [_encode_plmn]
  · intro p h5 h6
    unfold _encode_plmn
    rw [if_neg h5, if_neg h6]

/-- C4 witness: the layout at the spec's two concrete inputs and the
error branch at a length-1 input. -/
theorem plmn_encode_layout_witness :
    _encode_plmn [2, 4, 0, 0, 1] = some [4 <<< 4 ||| 2, 0xF0 ||| 0, 1 <<< 4 ||| 0] ∧
    _encode_plmn [3, 1, 0, 4, 1, 0] = some [1 <<< 4 ||| 3, 0 <<< 4 ||| 0, 1 <<< 4 ||| 4] ∧
    _encode_plmn [7] = none :=
  ⟨plmn_encode_layout.1 2 4 0 0 1 (by decide) (by decide) (by decide) (by decide) (by decide),
   plmn_encode_layout.2.1 3 1 0 4 1 0 (by decide) (by decide) (by decide)
     (by decide) (by decide) (by decide),
   plmn_encode_layout.2.2 [7] (by decide) (by decide)⟩

/-! ## C5: ATR detection -/

/-- Characterization of the ATR prefix matcher. -/
theorem atr_matches_iff (atr p : List Nat) (n : Nat) :
    _atr_matches atr p n = true ↔ n ≤ atr.length ∧ atr.take n = p.take n := by
  unfold _atr_matches
  by_cases h : atr.length < n
  · have h2 : ¬ n ≤ atr.length := by omega
    simp [h, h2]
  · have h2 : n ≤ atr.length := by omega
    simp [h, h2]

/-- An ATR that matches one 19-byte pattern cannot match a different
19-byte pattern: both full matches pin the same take. -/
theorem atr_matches_excl (atr p q : List Nat)
    (hne : p.take 19 ≠ q.take 19) (hp : _atr_matches atr p 19 = true) :
    _atr_matches atr q 19 = false := by
  cases hq : _atr_matches atr q 19 with
  | false => rfl
  | true =>
    obtain ⟨_, hp2⟩ := (atr_matches_iff atr p 19).mp hp
    obtain ⟨_, hq2⟩ := (atr_matches_iff atr q 19).mp hq
    exact absurd (hp2 ▸ hq2) hne

/-- An ATR that matches the 16-byte SJA2 pattern cannot match any of the
19-byte patterns, whose 16th byte differs. -/
theorem atr_matches_sja2_excl (atr p : List Nat)
    (hne : p.take 16 ≠ SJA2_ATR_PAT.take 16)
    (hp : _atr_matches atr SJA2_ATR_PAT 16 = true) :
    _atr_matches atr p 19 = false := by
  cases hq : _atr_matches atr p 19 with
  | false => rfl
  | true =>
    obtain ⟨_, hp2⟩ := (atr_matches_iff atr SJA2_ATR_PAT 16).mp hp
    obtain ⟨_, hq2⟩ := (atr_matches_iff atr p 19).mp hq
    have h16 : atr.take 16 = p.take 16 := by
      have : (atr.take 19).take 16 = (p.take 19).take 16 := by rw [hq2]
      simpa [List.take_take] using this
    exact absurd (h16.symm.trans hp2) hne

/-- C5: detection behavior: empty, shorter-than-16-byte and
pattern-free ATRs (such as 20 bytes of 0xFF) resolve to Unknown, and the
patterns take effect in priority order — each SJA5 (FamilyB) hardware
variant resolves to SJA5, then SJS1 (FamilyC), then SJA2 (FamilyA) — so
the most common FamilyB variant ATR (9FV) resolves to FamilyB and never
to an older family sharing its 15-byte prefix. -/
theorem detect_card_type_spec :
    detect_card_type [] = CardType.UNKNOWN ∧
    (∀ atr : List Nat, atr.length < 16 → detect_card_type atr = CardType.UNKNOWN) ∧
    detect_card_type (List.replicate 20 0xFF) = CardType.UNKNOWN ∧
    (∀ atr : List Nat,
      _atr_matches atr SJA5_ATR_9FV 19 = false →
      _atr_matches atr SJA5_ATR_SLM17 19 = false →
      _atr_matches atr SJA5_ATR_3FJ 19 = false →
      _atr_matches atr SJS1_ATR 19 = false →
      _atr_matches atr SJA2_ATR_PAT 16 = false →
      detect_card_type atr = CardType.UNKNOWN) ∧
    (∀ atr : List Nat, _atr_matches atr SJA5_ATR_9FV 19 = true →
      detect_card_type atr = CardType.SJA5) ∧
    (∀ atr : List Nat, _atr_matches atr SJA5_ATR_SLM17 19 = true →
      detect_card_type atr = CardType.SJA5) ∧
    (∀ atr : List Nat, _atr_matches atr SJA5_ATR_3FJ 19 = true →
      detect_card_type atr = CardType.SJA5) ∧
    (∀ atr : List Nat, _atr_matches atr SJS1_ATR 19 = true →
      detect_card_type atr = CardType.SJS1) ∧
    (∀ atr : List Nat, _atr_matches atr SJA2_ATR_PAT 16 = true →
      detect_card_type atr = CardType.SJA2) := by
  refine ⟨by decide, ?_, by decide, ?_, ?_, ?_, ?_, ?_, ?_⟩
  · intro atr h
    simp [detect_card_type, h]
  · intro atr h1 h2 h3 h4 h5
    simp [detect_card_type, h1, h2, h3, h4, h5]
  · intro atr h
    have hlen : 19 ≤ atr.length := ((atr_matches_iff atr SJA5_ATR_9FV 19).mp h).1
    have hne : atr ≠ [] := by intro hh; rw [hh] at hlen; simp at hlen
    simp [detect_card_type, h, hne, show ¬ atr.length < 16 by omega]
  · intro atr h
    have hlen : 19 ≤ atr.length := ((atr_matches_iff atr SJA5_ATR_SLM17 19).mp h).1
    have hne : atr ≠ [] := by intro hh; rw [hh] at hlen; simp at hlen
    have h1 := atr_matches_excl atr SJA5_ATR_SLM17 SJA5_ATR_9FV (by decide) h
    simp [detect_card_type, h, h1, hne, show ¬ atr.length < 16 by omega]
  · intro atr h
    have hlen : 19 ≤ atr.length := ((atr_matches_iff atr SJA5_ATR_3FJ 19).mp h).1
    have hne : atr ≠ [] := by intro hh; rw [hh] at hlen; simp at hlen
    have h1 := atr_matches_excl atr SJA5_ATR_3FJ SJA5_ATR_9FV (by decide) h
    have h2 := atr_matches_excl atr SJA5_ATR_3FJ SJA5_ATR_SLM17 (by decide) h
    simp [detect_card_type, h, h1, h2, hne, show ¬ atr.length < 16 by omega]
  · intro atr h
    have hlen : 19 ≤ atr.length := ((atr_matches_iff atr SJS1_ATR 19).mp h).1
    have hne : atr ≠ [] := by intro hh; rw [hh] at hlen; simp at hlen
    have h1 := atr_matches_excl atr SJS1_ATR SJA5_ATR_9FV (by decide) h
    have h2 := atr_matches_excl atr SJS1_ATR SJA5_ATR_SLM17 (by decide) h
    have h3 := atr_matches_excl atr SJS1_ATR SJA5_ATR_3FJ (by decide) h
    simp [detect_card_type, h, h1, h2, h3, hne, show ¬ atr.length < 16 by omega]
  · intro atr h
    have hlen : 16 ≤ atr.length := ((atr_matches_iff atr SJA2_ATR_PAT 16).mp h).1
    have hne : atr ≠ [] := by intro hh; rw [hh] at hlen; simp at hlen
    have h1 := atr_matches_sja2_excl atr SJA5_ATR_9FV (by decide) h
    have h2 := atr_matches_sja2_excl atr SJA5_ATR_SLM17 (by decide) h
    have h3 := atr_matches_sja2_excl atr SJA5_ATR_3FJ (by decide) h
    have h4 := atr_matches_sja2_excl atr SJS1_ATR (by decide) h
    simp [detect_card_type, h, h1, h2, h3, h4, hne, show ¬ atr.length < 16 by omega]

/-- C5 witness: a short ATR, a no-match conclusion at the all-0xFF ATR,
and the 9FV FamilyB variant ATR resolving to SJA5. -/
theorem detect_card_type_spec_witness :
    detect_card_type [0x3B] = CardType.UNKNOWN ∧
    detect_card_type (List.replicate 20 0xFF) = CardType.UNKNOWN ∧
    detect_card_type SJA5_ATR_9FV = CardType.SJA5 ∧
    detect_card_type SJS1_ATR = CardType.SJS1 ∧
    detect_card_type SJA2_ATR_PAT = CardType.SJA2 :=
  ⟨detect_card_type_spec.2.1 [0x3B] (by decide),
   detect_card_type_spec.2.2.2.1 (List.replicate 20 0xFF)
     (by decide) (by decide) (by decide) (by decide) (by decide),
   detect_card_type_spec.2.2.2.2.1 SJA5_ATR_9FV (by decide),
   detect_card_type_spec.2.2.2.2.2.2.2.1 SJS1_ATR (by decide),
   detect_card_type_spec.2.2.2.2.2.2.2.2 SJA2_ATR_PAT (by decide)⟩

/-! ## C6, C9: ADM1 authentication -/

/-- C6: authenticate maps driver outcomes to the documented results: no
card gives the distinct "no card" failure; an accepted ADM1 sets
`authenticated` and reports success; a refusal with 0 remaining retries
reports the card locked; a refusal with n > 0 remaining reports a
retryable failure carrying n; and a refusal whose retry query raises
degrades to the generic failure message. -/
theorem authenticate_outcomes :
    (∀ (cm : CardManager) (a : String) (f : Bool), cm.card = none →
      authenticate cm a f = (cm, false, "No card detected")) ∧
    (∀ (cm : CardManager) (dr : Driver) (a : String) (f : Bool),
      cm.card = some dr → dr.admin_auth (ascii_to_list a) f = Except.ok true →
      authenticate cm a f =
        ({ cm with authenticated := true }, true, "Authentication successful")) ∧
    (∀ (cm : CardManager) (dr : Driver) (a : String) (f : Bool),
      cm.card = some dr → dr.admin_auth (ascii_to_list a) f = Except.ok false →
      dr.chv_retrys = Except.ok 0 →
      authenticate cm a f = (cm, false, "Card is locked! No attempts remaining.")) ∧
    (∀ (cm : CardManager) (dr : Driver) (a : String) (f : Bool) (n : Nat),
      cm.card = some dr → dr.admin_auth (ascii_to_list a) f = Except.ok false →
      dr.chv_retrys = Except.ok n → 0 < n →
      authenticate cm a f =
        (cm, false, "Authentication failed. " ++ toString n ++ " attempts remaining")) ∧
    (∀ (cm : CardManager) (dr : Driver) (a : String) (f : Bool) (e : String),
      cm.card = some dr → dr.admin_auth (ascii_to_list a) f = Except.ok false →
      dr.chv_retrys = Except.error e →
      authenticate cm a f = (cm, false, "Authentication failed")) := by
  refine ⟨?_, ?_, ?_, ?_, ?_⟩
  · intro cm a f h
    simp [authenticate, h]
  · intro cm dr a f h hA
    simp [authenticate, h, hA]
  · intro cm dr a f h hA hR
    simp [authenticate, h, hA, hR]
  · intro cm dr a f n h hA hR hn
    obtain ⟨m, rfl⟩ : ∃ m, n = m + 1 := ⟨n - 1, by omega⟩
    simp [authenticate, h, hA, hR]
  · intro cm dr a f e h hA hR
    simp [authenticate, h, hA, hR]

/-- C6 witness: the five outcomes at concrete managers and drivers. -/
theorem authenticate_outcomes_witness :
    authenticate cm_no_card "12345678" false = (cm_no_card, false, "No card detected") ∧
    authenticate (cm_fresh drv_ok) "12345678" false =
      ({ cm_fresh drv_ok with authenticated := true }, true, "Authentication successful") ∧
    authenticate (cm_fresh drv_locked) "12345678" false =
      (cm_fresh drv_locked, false, "Card is locked! No attempts remaining.") ∧
    authenticate (cm_fresh drv_retry2) "12345678" false =
      (cm_fresh drv_retry2, false, "Authentication failed. 2 attempts remaining") ∧
    authenticate (cm_fresh drv_chv_err) "12345678" false =
      (cm_fresh drv_chv_err, false, "Authentication failed") :=
  ⟨authenticate_outcomes.1 cm_no_card "12345678" false rfl,
   authenticate_outcomes.2.1 (cm_fresh drv_ok) drv_ok "12345678" false rfl rfl,
   authenticate_outcomes.2.2.1 (cm_fresh drv_locked) drv_locked "12345678" false rfl rfl rfl,
   authenticate_outcomes.2.2.2.1 (cm_fresh drv_retry2) drv_retry2 "12345678" false 2
     rfl rfl rfl (by decide),
   authenticate_outcomes.2.2.2.2 (cm_fresh drv_chv_err) drv_chv_err "12345678" false
     "chv query failed" rfl rfl rfl⟩

/-- C9: on every failure outcome of authenticate the manager state (in
particular `authenticated`) is returned unchanged, and the state is
modified only on the single success path, where `authenticated` becomes
true. -/
theorem authenticate_state_discipline :
    ∀ (cm : CardManager) (a : String) (f : Bool),
      ((authenticate cm a f).2.1 = false → (authenticate cm a f).1 = cm) ∧
      ((authenticate cm a f).2.1 = true →
        (authenticate cm a f).1 = { cm with authenticated := true }) := by
  intro cm a f
  unfold authenticate
  cases hc : cm.card with
  | none => simp
  | some dr =>
    cases hA : dr.admin_auth (ascii_to_list a) f with
    | error e => simp [hA]
    | ok b =>
      cases b with
      | true => simp [hA]
      | false =>
        cases hR : dr.chv_retrys with
        | error e => simp [hA, hR]
        | ok n =>
          cases n with
          | zero => simp [hA, hR]
          | succ m => simp [hA, hR]

/-- C9 witness: a failing attempt against a locked card leaves the
session state untouched. -/
theorem authenticate_state_discipline_witness :
    (authenticate (cm_fresh drv_locked) "12345678" false).2.1 = false ∧
    (authenticate (cm_fresh drv_locked) "12345678" false).1 = cm_fresh drv_locked :=
  ⟨rfl, (authenticate_state_discipline (cm_fresh drv_locked) "12345678" false).1 rfl⟩

/-! ## C7, C8: programming orchestration -/

/-- Every call in the trace of a plan run either was already in the
accumulator or comes from a plan step whose guard held. -/
theorem runSteps_trace_mem (dr : Driver) (ct : CardType) (d : CardData) :
    ∀ (ss : List Step) (t : List WCall) (c : WCall),
      c ∈ (runSteps dr ct d ss t).2 →
      c ∈ t ∨ ∃ s ∈ ss, s.guard ct d = true ∧ ∃ ok, s.action dr d = some (c, ok)
  | [], t, c => by
    intro hc
    simp [runSteps] at hc
    exact Or.inl hc
  | s :: rest, t, c => by
    intro hc
    cases hg : s.guard ct d with
    | false =>
      rw [runSteps, hg] at hc
      simp at hc
      rcases runSteps_trace_mem dr ct d rest t c hc with h | ⟨s2, hs2, hgd, ok, hact⟩
      · exact Or.inl h
      · exact Or.inr ⟨s2, List.mem_cons_of_mem s hs2, hgd, ok, hact⟩
    | true =>
      rw [runSteps, hg] at hc
      simp at hc
      cases hact : s.action dr d with
      | none =>
        rw [hact] at hc
        simp at hc
        exact Or.inl hc
      | some p =>
        obtain ⟨c2, ok⟩ := p
        rw [hact] at hc
        simp at hc
        cases hok : (ok || s.swallows) with
        | true =>
          rw [if_pos (by simpa using hok)] at hc
          rcases runSteps_trace_mem dr ct d rest (t ++ [c2]) c hc with h | ⟨s2, hs2, hgd, ok2, hact2⟩
          · rcases List.mem_append.mp h with h | h
            · exact Or.inl h
            · simp at h
              exact Or.inr ⟨s, List.mem_cons_self s rest, hg, ok, h ▸ hact⟩
          · exact Or.inr ⟨s2, List.mem_cons_of_mem s hs2, hgd, ok2, hact2⟩
        | false =>
          rw [if_neg (by simpa using hok)] at hc
          simp at hc
          rcases hc with h | h
          · exact Or.inl h
          · exact Or.inr ⟨s, List.mem_cons_self s rest, hg, ok, h ▸ hact⟩

/-- A plan run on which every guarded step succeeds or swallows its
failure completes with the success result. -/
theorem runSteps_success (dr : Driver) (ct : CardType) (d : CardData) :
    ∀ (ss : List Step) (t : List WCall),
      (∀ s ∈ ss, s.guard ct d = true →
        ∃ c ok, s.action dr d = some (c, ok) ∧ (ok = true ∨ s.swallows = true)) →
      (runSteps dr ct d ss t).1 = (true, "Card programmed successfully")
  | [], t, _ => by simp [runSteps]
  | s :: rest, t, h => by
    have hrest : ∀ s2 ∈ rest, s2.guard ct d = true →
        ∃ c ok, s2.action dr d = some (c, ok) ∧ (ok = true ∨ s2.swallows = true) :=
      fun s2 hs2 => h s2 (List.mem_cons_of_mem s hs2)
    cases hg : s.guard ct d with
    | false =>
      rw [runSteps, hg]
      simp
      exact runSteps_success dr ct d rest t hrest
    | true =>
      obtain ⟨c, ok, hact, hok⟩ := h s (List.mem_cons_self s rest) hg
      have hor : (ok || s.swallows) = true := by
        rcases hok with h | h <;> simp [h]
      rw [runSteps, hg]
      simp [hact, hor]
      exact runSteps_success dr ct d rest (t ++ [c]) hrest

/-- C7 counterexample: an authenticated session, an all-succeeding driver
and a field map containing only IMSI produce TWO driver write calls — the
IMSI write plus the unconditional 2-argument algorithm-parameter write
(card_manager.py:230 runs with defaulted MILENAGE algorithms even though
no ALGO key is present) — not exactly one. -/
theorem program_only_present_cex :
    program_card (cm_auth drv_ok) d_imsi_only =
      ((true, "Card programmed successfully"),
        [WCall.write_imsi, WCall.write_auth_params2]) ∧
    [WCall.write_imsi, WCall.write_auth_params2] ≠ [WCall.write_imsi] :=
  ⟨rfl, by decide⟩

/-- C7 (amended): program_card touches only the elementary files whose
fields are present in the input map, with the single exception of the
authentication-algorithm write, which is always performed (with algorithms
defaulting to MILENAGE); in particular a field map containing only IMSI
produces exactly the mandatory IMSI write followed by the unconditional
algorithm write, and returns success. -/
theorem program_card_frame :
    (∀ (cm : CardManager) (d : CardData) (c : WCall),
      c ∈ (program_card cm d).2 → call_guard cm.card_type d c = true) ∧
    (∀ (cm : CardManager) (dr : Driver) (d : CardData),
      cm.authenticated = true → cm.card = some dr →
      dr.write_imsi_ok = true → dr.write_auth_ok = true →
      truthyL d.IMSI = true → d.ICCID = none → d.Ki = none → d.OPc = none →
      d.ALGO_4G5G = none → d.MNC_LENGTH = none → d.has_MILENAGE_R1 = false →
      d.has_TUAK_RES_SIZE = false → d.HPLMN = none →
      d.has_ROUTING_INDICATOR = false → d.has_HNET_PUBKEY = false →
      d.OPLMN_ACT = none →
      program_card cm d =
        ((true, "Card programmed successfully"),
          [WCall.write_imsi, WCall.write_auth_params2])) := by
  constructor
  · intro cm d c hc
    unfold program_card at hc
    by_cases hauth : cm.authenticated = false
    · rw [if_pos hauth] at hc
      simp at hc
    · rw [if_neg hauth] at hc
      cases hcd : cm.card with
      | none =>
        rw [hcd] at hc
        simp at hc
      | some dr =>
        rw [hcd] at hc
        rcases runSteps_trace_mem dr cm.card_type d program_steps [] c hc with
          h | ⟨s, hs, hg, ok, hact⟩
        · simp at h
        · simp only [program_steps, List.mem_cons, List.not_mem_nil, or_false] at hs
          rcases hs with rfl | rfl | rfl | rfl | rfl | rfl | rfl | rfl | rfl | rfl | rfl
          · simp at hact
            obtain ⟨rfl, -⟩ := hact
            simpa [call_guard] using hg
          · simp at hact
            obtain ⟨rfl, -⟩ := hact
            simpa [call_guard] using hg
          · simp at hact
            obtain ⟨rfl, -⟩ := hact
            simpa [call_guard] using hg
          · simp at hact
            obtain ⟨rfl, -⟩ := hact
            simpa [call_guard] using hg
          · simp at hact
            obtain ⟨rfl, -⟩ := hact
            by_cases hcnd : truthyS d.ALGO_4G5G = true ∧ dr.has_write_auth_params = true
            · simp [call_guard, hcnd]
            · simp [call_guard, hcnd]
          · have hact2 : (match (d.MNC_LENGTH.getD "").toInt? with
                | none => none
                | some _ => some (WCall.write_mnclen, dr.write_mnclen_ok)) =
                  some (c, ok) := hact
            cases hm : (d.MNC_LENGTH.getD "").toInt? with
            | none =>
              rw [hm] at hact2
              simp at hact2
            | some n =>
              rw [hm] at hact2
              simp at hact2
              obtain ⟨rfl, -⟩ := hact2
              simpa [call_guard] using hg
          · simp at hact
            obtain ⟨rfl, -⟩ := hact
            simpa [call_guard] using hg
          · simp at hact
            obtain ⟨rfl, -⟩ := hact
            simpa [call_guard] using hg
          · simp at hact
            obtain ⟨rfl, -⟩ := hact
            simpa [call_guard] using hg
          · simp at hact
            obtain ⟨rfl, -⟩ := hact
            simpa [call_guard] using hg
          · simp at hact
            obtain ⟨rfl, -⟩ := hact
            simpa [call_guard] using hg
  · intro cm dr d hauth hcard hiok haok h1 h2 h3 h4 h5 h6 h7 h8 h9 h10 h11 h12
    unfold program_card
    rw [if_neg (by simp [hauth]), hcard]
    have tSn : truthyS none = false := by decide
    have tLn : truthyL none = false := by decide
    simp [program_steps, runSteps, h1, h2, h3, h4, h5, h6,
          h7, h8, h9, h10, h11, h12, hiok, haok, tSn, tLn]

/-- C7 witness: the amended run at the concrete only-IMSI map. -/
theorem program_card_frame_witness :
    program_card (cm_auth drv_ok) d_imsi_only =
      ((true, "Card programmed successfully"),
        [WCall.write_imsi, WCall.write_auth_params2]) :=
  program_card_frame.2 (cm_auth drv_ok) drv_ok d_imsi_only rfl rfl rfl rfl
    (by decide) rfl rfl rfl rfl rfl rfl rfl rfl rfl rfl rfl

/-- C8: program_card requires an authenticated session and fails
immediately otherwise; given an authenticated session, a raising ICCID
write is swallowed and the run still returns overall success (when no
mandatory step fails), while a raising IMSI write aborts the whole call
with an error after exactly the attempted IMSI call, so no later field's
write is attempted. -/
theorem program_card_error_policy :
    (∀ (cm : CardManager) (d : CardData), cm.authenticated = false →
      program_card cm d = ((false, "Not authenticated"), [])) ∧
    (∀ (cm : CardManager) (dr : Driver) (d : CardData),
      cm.authenticated = true → cm.card = some dr →
      dr.write_imsi_ok = true → dr.write_key_ok = true → dr.write_opc_ok = true →
      dr.write_auth_ok = true → dr.write_mnclen_ok = true →
      dr.write_iccid_ok = false →
      (truthyS d.MNC_LENGTH = true → ((d.MNC_LENGTH.getD "").toInt?).isSome = true) →
      (program_card cm d).1 = (true, "Card programmed successfully")) ∧
    (∀ (cm : CardManager) (dr : Driver) (d : CardData),
      cm.authenticated = true → cm.card = some dr →
      truthyL d.IMSI = true → dr.write_imsi_ok = false →
      program_card cm d = ((false, "Programming error"), [WCall.write_imsi])) := by
  refine ⟨?_, ?_, ?_⟩
  · intro cm d h
    simp [program_card, h]
  · intro cm dr d hauth hcard h1 h2 h3 h4 h5 hic hmnc
    unfold program_card
    rw [if_neg (by simp [hauth]), hcard]
    show (runSteps dr cm.card_type d program_steps []).1 = (true, "Card programmed successfully")
    apply runSteps_success
    intro s hs hg
    simp only [program_steps, List.mem_cons, List.not_mem_nil, or_false] at hs
    rcases hs with rfl | rfl | rfl | rfl | rfl | rfl | rfl | rfl | rfl | rfl | rfl
    · exact ⟨_, _, rfl, Or.inl h1⟩
    · exact ⟨_, _, rfl, Or.inr rfl⟩
    · exact ⟨_, _, rfl, Or.inl h2⟩
    · exact ⟨_, _, rfl, Or.inl h3⟩
    · exact ⟨_, _, rfl, Or.inl h4⟩
    · have hgs : truthyS d.MNC_LENGTH = true := hg
      obtain ⟨n, hn⟩ := Option.isSome_iff_exists.mp (hmnc hgs)
      refine ⟨WCall.write_mnclen, dr.write_mnclen_ok, ?_, Or.inl h5⟩
      show (match (d.MNC_LENGTH.getD "").toInt? with
            | none => none
            | some _ => some (WCall.write_mnclen, dr.write_mnclen_ok)) =
          some (WCall.write_mnclen, dr.write_mnclen_ok)
      rw [hn]
    · exact ⟨_, _, rfl, Or.inl rfl⟩
    · exact ⟨_, _, rfl, Or.inl rfl⟩
    · exact ⟨_, _, rfl, Or.inl rfl⟩
    · exact ⟨_, _, rfl, Or.inl rfl⟩
    · exact ⟨_, _, rfl, Or.inl rfl⟩
  · intro cm dr d hauth hcard himsi hfail
    unfold program_card
    rw [if_neg (by simp [hauth]), hcard]
    simp [program_steps, runSteps, himsi, hfail]

/-- C8 witness: the three branches at concrete sessions: an
unauthenticated call, an authenticated run whose ICCID write raises but
still succeeds, and an authenticated run whose IMSI write raises and
aborts after the single attempted IMSI call. -/
theorem program_card_error_policy_witness :
    program_card (cm_fresh drv_ok) d_imsi_only = ((false, "Not authenticated"), []) ∧
    (program_card (cm_auth drv_iccid_fail) d_imsi_iccid).1 =
      (true, "Card programmed successfully") ∧
    program_card (cm_auth drv_imsi_fail) d_imsi_only =
      ((false, "Programming error"), [WCall.write_imsi]) :=
  ⟨program_card_error_policy.1 (cm_fresh drv_ok) d_imsi_only rfl,
   program_card_error_policy.2.1 (cm_auth drv_iccid_fail) drv_iccid_fail d_imsi_iccid
     rfl rfl rfl rfl rfl rfl rfl rfl (by decide),
   program_card_error_policy.2.2 (cm_auth drv_imsi_fail) drv_imsi_fail d_imsi_only
     rfl rfl (by decide) rfl⟩

/-! ## C10: verification skips unreadable fields -/

/-- C10: when the per-field read-back of IMSI (and ICCID) raises,
read_card_data records the field as None, and verify_card silently skips
the comparison, returning verified with an empty mismatch list even
though an expected value for the field was supplied. -/
theorem verify_skips_unreadable :
    ∀ (cm : CardManager) (dr : Driver) (e : ExpectedData),
      cm.authenticated = true → cm.card = some dr →
      dr.get_imsi = none → dr.get_iccid = none → e.IMSI.isSome = true →
      (∃ data, read_card_data cm = some data ∧ data.imsi = none) ∧
      verify_card cm e = (true, []) := by
  intro cm dr e hauth hcard h1 h2 hexp
  have hrd : read_card_data cm = some
      { imsi := none, iccid := none,
        mnc_length :=
          match cm.card.bind (fun dr => dr.read_ad) with
          | some ad => if ad ≠ [] ∧ ad.length > 3 then some (ad.getD 3 0 &&& 0x0F) else none
          | none => none,
        atr := cm.atr.getD [], ki_readable := false } := by
    unfold read_card_data
    rw [if_neg (by simp [hauth])]
    simp [hcard, h1, h2]
  refine ⟨⟨_, hrd, rfl⟩, ?_⟩
  unfold verify_card
  rw [if_neg (by simp [hauth]), hrd]
  simp

/-- C10 witness: a concrete authenticated session whose reads raise, with
an expected IMSI supplied, verifies with an empty report. -/
theorem verify_skips_unreadable_witness :
    (∃ data, read_card_data (cm_auth drv_ok) = some data ∧ data.imsi = none) ∧
    verify_card (cm_auth drv_ok) e_imsi = (true, []) :=
  verify_skips_unreadable (cm_auth drv_ok) drv_ok e_imsi rfl rfl rfl rfl rfl
